import Mathlib

/-!
# Verification of the diary & reward-points tracker (src/app.py)

Shallow embedding of the persistence/domain layer of the Streamlit diary
application: a SQLite database with three tables (`diary_entries`, `tasks`,
`points_log`) accessed through single-statement queries.  The database is
modelled as a record of three row lists kept in rowid (insertion) order,
together with the `AUTOINCREMENT` counters.  `created_at` timestamps
(`datetime.now(JST).isoformat(timespec="seconds")` in the source) are modelled
as abstract `Nat` values supplied to each writing operation; SQLite's
`ORDER BY datetime(created_at) DESC` becomes a sort on that value.
-/

/-- One row of the `diary_entries` table (`init_db`, src/app.py lines 36-47). -/
structure DiaryRow where
  id : Nat
  entry_date : String
  entry_time : Option String
  mood : String
  content : String
  created_at : Nat
deriving DecidableEq

/-- One row of the `tasks` table (src/app.py lines 50-59).  The `is_active`
column is an `INTEGER` that only ever holds 0 or 1 (default 1, inserts write 1,
`update_task_active` writes `1 if is_active else 0`), so it is modelled as a
`Bool`. -/
structure TaskRow where
  id : Nat
  name : String
  point_value : Int
  is_active : Bool
deriving DecidableEq

/-- One row of the `points_log` table (src/app.py lines 62-73). -/
structure PointsRow where
  id : Nat
  action_type : String
  task_or_reason : String
  points : Int
  note : String
  created_at : Nat
deriving DecidableEq

/-- The embedded SQLite database: the three tables in rowid order plus the
`AUTOINCREMENT` counters that assign fresh primary keys. -/
structure DB where
  diary : List DiaryRow
  tasks : List TaskRow
  points : List PointsRow
  nextDiaryId : Nat
  nextTaskId : Nat
  nextPointsId : Nat
deriving DecidableEq

/-- A database with all three tables empty (fresh `diary_points.db`). -/
def emptyDB : DB :=
  { diary := [], tasks := [], points := [], nextDiaryId := 1, nextTaskId := 1,
    nextPointsId := 1 }

/-- `save_diary` (src/app.py lines 93-109): INSERT one row into
`diary_entries`.  `entry_date.isoformat()` and the optional
`entry_time.strftime("%H:%M:%S")` arrive as already-formatted strings; `now`
is the write timestamp `datetime.now(JST)`. -/
def save_diary (db : DB) (entry_date : String) (entry_time : Option String)
    (mood content : String) (now : Nat) : DB :=
  { db with
    diary := db.diary ++
      [⟨db.nextDiaryId, entry_date, entry_time, mood, content, now⟩],
    nextDiaryId := db.nextDiaryId + 1 }

/-- `log_points` (src/app.py lines 127-138): INSERT one row into
`points_log`, unconditionally. -/
def log_points (db : DB) (action_type task_or_reason : String) (points : Int)
    (note : String) (now : Nat) : DB :=
  { db with
    points := db.points ++
      [⟨db.nextPointsId, action_type, task_or_reason, points, note, now⟩],
    nextPointsId := db.nextPointsId + 1 }

/-- `get_total_points` (src/app.py lines 141-145):
`SELECT COALESCE(SUM(points), 0) FROM points_log` — the sum of the `points`
column, 0 on an empty table. -/
def get_total_points (db : DB) : Int :=
  (db.points.map (fun r => r.points)).sum

/-- `add_task` (src/app.py lines 188-194): INSERT one row into `tasks` with
`is_active = 1`. -/
def add_task (db : DB) (name : String) (point_value : Int) : DB :=
  { db with
    tasks := db.tasks ++ [⟨db.nextTaskId, name, point_value, true⟩],
    nextTaskId := db.nextTaskId + 1 }

/-- `update_task_active` (src/app.py lines 197-203):
`UPDATE tasks SET is_active = ? WHERE id = ?`. -/
def update_task_active (db : DB) (task_id : Nat) (is_active : Bool) : DB :=
  { db with
    tasks := db.tasks.map (fun t =>
      if t.id = task_id then { t with is_active := is_active } else t) }

/-- The fixed seed list of starter tasks (src/app.py lines 78-83). -/
def default_tasks : List (String × Int) :=
  [("日記を書いた", 1), ("Python の勉強", 3), ("運動した", 3), ("早起きできた", 2)]

/-- `cur.executemany("INSERT INTO tasks ...", default_tasks)`
(src/app.py lines 84-87): the same INSERT as `add_task`, once per pair. -/
def insertTasks (db : DB) : List (String × Int) → DB
  | [] => db
  | (n, p) :: rest => insertTasks (add_task db n p) rest

/-- `init_db` (src/app.py lines 32-89): the three `CREATE TABLE IF NOT EXISTS`
statements leave existing data untouched (in the model the tables always
exist, so they are the identity); then the seed tasks are inserted exactly
when `SELECT COUNT(*) FROM tasks` returns 0. -/
def init_db (db : DB) : DB :=
  if db.tasks.isEmpty then insertTasks db default_tasks else db

/-- Query order of `get_recent_diaries` and `get_points_history`:
`ORDER BY datetime(created_at) DESC`, i.e. later write timestamps first. -/
def createdDesc {α : Type} (created : α → Nat) (a b : α) : Prop :=
  created b ≤ created a

instance {α : Type} (created : α → Nat) : DecidableRel (createdDesc created) :=
  fun a b => Nat.decLe (created b) (created a)

instance {α : Type} (created : α → Nat) : IsTotal α (createdDesc created) :=
  ⟨fun a b => Nat.le_total (created b) (created a)⟩

instance {α : Type} (created : α → Nat) : IsTrans α (createdDesc created) :=
  ⟨fun _ _ _ h1 h2 => Nat.le_trans h2 h1⟩

/-- `get_recent_diaries` (src/app.py lines 112-123):
`SELECT entry_date, entry_time, mood, content, created_at FROM diary_entries
ORDER BY datetime(created_at) DESC LIMIT ?`. -/
def get_recent_diaries (db : DB) (limit : Nat) :
    List (String × Option String × String × String × Nat) :=
  ((List.insertionSort (createdDesc DiaryRow.created_at) db.diary).take
      limit).map
    (fun r => (r.entry_date, r.entry_time, r.mood, r.content, r.created_at))

/-- `get_points_history` (src/app.py lines 148-160):
`SELECT action_type, task_or_reason, points, note, created_at FROM points_log
ORDER BY datetime(created_at) DESC`, with `LIMIT ?` appended exactly when a
limit is given. -/
def get_points_history (db : DB) (limit : Option Nat) :
    List (String × String × Int × String × Nat) :=
  (match limit with
    | some n =>
        (List.insertionSort (createdDesc PointsRow.created_at) db.points).take n
    | none =>
        List.insertionSort (createdDesc PointsRow.created_at) db.points).map
    (fun (r : PointsRow) =>
      (r.action_type, r.task_or_reason, r.points, r.note, r.created_at))

/-- Query order of the task queries: `ORDER BY id` ascending. -/
def idAsc (a b : TaskRow) : Prop := a.id ≤ b.id

instance : DecidableRel idAsc := fun a b => Nat.decLe a.id b.id

instance : IsTotal TaskRow idAsc := ⟨fun a b => Nat.le_total a.id b.id⟩

instance : IsTrans TaskRow idAsc := ⟨fun _ _ _ h1 h2 => Nat.le_trans h1 h2⟩

/-- `get_active_tasks` (src/app.py lines 163-173):
`SELECT id, name, point_value FROM tasks WHERE is_active = 1 ORDER BY id`. -/
def get_active_tasks (db : DB) : List (Nat × String × Int) :=
  (List.insertionSort idAsc (db.tasks.filter (fun t => t.is_active))).map
    (fun t => (t.id, t.name, t.point_value))

/-- `get_all_tasks` (src/app.py lines 176-185):
`SELECT id, name, point_value, is_active FROM tasks ORDER BY id`. -/
def get_all_tasks (db : DB) : List (Nat × String × Int × Bool) :=
  (List.insertionSort idAsc db.tasks).map
    (fun t => (t.id, t.name, t.point_value, t.is_active))

/-- Python `s.strip()`: the string without its leading and trailing
whitespace, modelled on the character list. -/
def pyStrip (s : String) : String :=
  ⟨(((s.data.dropWhile Char.isWhitespace).reverse.dropWhile
      Char.isWhitespace).reverse)⟩

/-- The presentation-layer diary submission (src/app.py lines 242-247): the
save button rejects the entry when `not content.strip()` and the selected
mood is "なし"; otherwise it calls `save_diary`. -/
def main_diary_submit (db : DB) (entry_date : String)
    (entry_time : Option String) (mood content : String) (now : Nat) : DB :=
  if pyStrip content = "" ∧ mood = "なし" then db
  else save_diary db entry_date entry_time mood content now

/-- The presentation-layer spend submission (src/app.py lines 288-295): the
spend button first compares `use_points` with the displayed balance and only
then calls `log_points(conn, "spend", label, -use_points, note)`, where
`label = reason.strip() or "理由なし"`. -/
def main_spend_submit (db : DB) (reason : String) (use_points : Int)
    (note : String) (now : Nat) : DB :=
  if get_total_points db < use_points then db
  else
    log_points db "spend"
      (if pyStrip reason = "" then "理由なし" else pyStrip reason)
      (-use_points) note now

/-- The arguments of one `log_points` call. -/
structure LogCall where
  action_type : String
  task_or_reason : String
  points : Int
  note : String
  now : Nat
deriving DecidableEq

/-- A sequence of `log_points` calls, applied in order. -/
def applyLogs (db : DB) (calls : List LogCall) : DB :=
  calls.foldl
    (fun d c => log_points d c.action_type c.task_or_reason c.points c.note c.now)
    db

theorem get_total_points_log (db : DB) (a r : String) (p : Int) (n : String)
    (now : Nat) :
    get_total_points (log_points db a r p n now) = get_total_points db + p := by
  simp [get_total_points, log_points]

theorem get_total_points_applyLogs (calls : List LogCall) (db : DB) :
    get_total_points (applyLogs db calls) =
      get_total_points db + (calls.map (fun c => c.points)).sum := by
  induction calls generalizing db with
  | nil => simp [applyLogs]
  | cons c rest ih =>
      simp only [applyLogs, List.foldl_cons, List.map_cons, List.sum_cons]
      rw [show (rest.foldl
          (fun d c =>
            log_points d c.action_type c.task_or_reason c.points c.note c.now)
          (log_points db c.action_type c.task_or_reason c.points c.note c.now))
          = applyLogs
              (log_points db c.action_type c.task_or_reason c.points c.note
                c.now) rest from rfl]
      rw [ih, get_total_points_log]
      ring

/-- C1: for every sequence of `log_points` calls starting from an empty
ledger, `get_total_points` returns the exact sum of the `points` arguments of
all calls made so far, and 0 for the empty sequence (empty ledger sums to 0
via `COALESCE`). -/
theorem C1_total_points_is_sum_of_logs (calls : List LogCall) (db : DB)
    (h : db.points = []) :
    get_total_points (applyLogs db calls) =
      (calls.map (fun c => c.points)).sum := by
  rw [get_total_points_applyLogs]
  simp [get_total_points, h]

theorem C1_witness :
    get_total_points
        (applyLogs emptyDB
          [⟨"earn", "運動した", 3, "", 0⟩, ⟨"spend", "ご褒美", -5, "", 1⟩]) = -2 := by
  rw [C1_total_points_is_sum_of_logs _ emptyDB rfl]
  decide

theorem insertTasks_diary (ts : List (String × Int)) (db : DB) :
    (insertTasks db ts).diary = db.diary := by
  induction ts generalizing db with
  | nil => rfl
  | cons p rest ih => cases p; simp [insertTasks, ih, add_task]

theorem insertTasks_points (ts : List (String × Int)) (db : DB) :
    (insertTasks db ts).points = db.points := by
  induction ts generalizing db with
  | nil => rfl
  | cons p rest ih => cases p; simp [insertTasks, ih, add_task]

theorem insertTasks_tasks_append (ts : List (String × Int)) (db : DB) :
    ∃ extra, (insertTasks db ts).tasks = db.tasks ++ extra := by
  induction ts generalizing db with
  | nil => exact ⟨[], (List.append_nil _).symm⟩
  | cons p rest ih =>
      cases p with
      | mk n v =>
          obtain ⟨extra, hx⟩ := ih (add_task db n v)
          refine ⟨⟨db.nextTaskId, n, v, true⟩ :: extra, ?_⟩
          rw [insertTasks, hx]
          simp [add_task]

/-- C2: `log_points` itself never rejects a spend — for every database state
and every points value (negative values included) it appends the row
unconditionally, the derived balance simply shifts by `p` (and thus can go
negative), and the balance check lives only in the presentation layer's
spend handler, which compares `use_points` against the balance before
calling `log_points`. -/
theorem C2_log_never_rejects_spend (db : DB) (a r : String) (p : Int)
    (n : String) (now : Nat) :
    (log_points db a r p n now).points =
        db.points ++ [⟨db.nextPointsId, a, r, p, n, now⟩]
      ∧ get_total_points (log_points db a r p n now) = get_total_points db + p
      ∧ (∀ (reason : String) (up : Int) (note : String) (t : Nat),
          get_total_points db < up → main_spend_submit db reason up note t = db)
      ∧ (∀ (reason : String) (up : Int) (note : String) (t : Nat),
          up ≤ get_total_points db →
            main_spend_submit db reason up note t =
              log_points db "spend"
                (if pyStrip reason = "" then "理由なし" else pyStrip reason)
                (-up) note t) := by
  refine ⟨rfl, get_total_points_log db a r p n now, ?_, ?_⟩
  · intro reason up note t h
    simp [main_spend_submit, h]
  · intro reason up note t h
    simp [main_spend_submit, not_lt.mpr h]

theorem C2_witness :
    main_spend_submit emptyDB "ビール" 5 "" 0 = emptyDB ∧
      get_total_points (log_points emptyDB "spend" "ビール" (-5) "" 0) =
        get_total_points emptyDB + (-5) :=
  ⟨(C2_log_never_rejects_spend emptyDB "spend" "ビール" (-5) "" 0).2.2.1
      "ビール" 5 "" 0 (by decide),
    (C2_log_never_rejects_spend emptyDB "spend" "ビール" (-5) "" 0).2.1⟩

/-- C3: `save_diary` is append-only — calling it twice with identical
arguments appends two rows with distinct primary keys after the untouched
existing rows, so both calls yield distinct retrievable entries and no
existing row is updated or overwritten. -/
theorem C3_save_entry_append_only (db : DB) (d : String) (t : Option String)
    (m c : String) (now1 now2 : Nat) :
    (save_diary (save_diary db d t m c now1) d t m c now2).diary =
        db.diary ++
          [⟨db.nextDiaryId, d, t, m, c, now1⟩,
            ⟨db.nextDiaryId + 1, d, t, m, c, now2⟩]
      ∧ (⟨db.nextDiaryId, d, t, m, c, now1⟩ : DiaryRow) ≠
          ⟨db.nextDiaryId + 1, d, t, m, c, now2⟩ := by
  constructor
  · simp [save_diary]
  · intro h
    injection h with h1
    omega

/-- C6: ledger rows are immutable once written — `save_diary`, `add_task`,
`update_task_active` and `init_db` leave the `points_log` table exactly as it
was, and `log_points` only appends; in particular toggling a task after a
completion was logged changes no existing ledger row's points or label. -/
theorem C6_ledger_rows_immutable (db : DB) (d : String) (t : Option String)
    (m c name : String) (pv : Int) (tid : Nat) (v : Bool) (a r : String)
    (p : Int) (n : String) (now : Nat) :
    (save_diary db d t m c now).points = db.points
      ∧ (add_task db name pv).points = db.points
      ∧ (update_task_active db tid v).points = db.points
      ∧ (init_db db).points = db.points
      ∧ (log_points db a r p n now).points =
          db.points ++ [⟨db.nextPointsId, a, r, p, n, now⟩] := by
  refine ⟨rfl, rfl, rfl, ?_, rfl⟩
  by_cases h : db.tasks.isEmpty <;> simp [init_db, h, insertTasks_points]

theorem update_task_active_map_twice (task_id : Nat) (v : Bool)
    (l : List TaskRow) :
    (l.map (fun t =>
        if t.id = task_id then { t with is_active := v } else t)).map
        (fun t => if t.id = task_id then { t with is_active := v } else t) =
      l.map (fun t => if t.id = task_id then { t with is_active := v } else t) := by
  induction l with
  | nil => rfl
  | cons t rest ih =>
      simp only [List.map_cons, ih]
      by_cases h : t.id = task_id <;> simp [h]

/-- C7: `update_task_active` is idempotent — running the same UPDATE twice
with the same `task_id` and flag leaves exactly the state of running it
once. -/
theorem C7_set_active_idempotent (db : DB) (task_id : Nat) (v : Bool) :
    update_task_active (update_task_active db task_id v) task_id v =
      update_task_active db task_id v := by
  simp only [update_task_active]
  rw [update_task_active_map_twice]

/-- C9: the core `save_diary` performs no validation — for every mood and
content, the "なし" mood with empty content included, it inserts exactly one
new row; the mood/content rejection happens only in the presentation-layer
submit handler, which returns without calling `save_diary` exactly when the
trimmed content is empty and the mood is "なし". -/
theorem C9_save_entry_no_validation (db : DB) (d : String)
    (t : Option String) (mood content : String) (now : Nat) :
    (save_diary db d t mood content now).diary =
        db.diary ++ [⟨db.nextDiaryId, d, t, mood, content, now⟩]
      ∧ (pyStrip content = "" ∧ mood = "なし" →
          main_diary_submit db d t mood content now = db)
      ∧ (¬(pyStrip content = "" ∧ mood = "なし") →
          main_diary_submit db d t mood content now =
            save_diary db d t mood content now) := by
  refine ⟨rfl, ?_, ?_⟩
  · intro h
    simp [main_diary_submit, h.1, h.2]
  · intro h
    rw [main_diary_submit, if_neg h]

theorem C9_witness :
    (save_diary emptyDB "2024-01-01" none "なし" "" 7).diary =
        [⟨1, "2024-01-01", none, "なし", "", 7⟩]
      ∧ main_diary_submit emptyDB "2024-01-01" none "なし" "" 7 = emptyDB :=
  ⟨(C9_save_entry_no_validation emptyDB "2024-01-01" none "なし" "" 7).1,
    (C9_save_entry_no_validation emptyDB "2024-01-01" none "なし" "" 7).2.1
      ⟨by decide, rfl⟩⟩

/-- C10: `update_task_active` with a `task_id` that matches no task row
succeeds and leaves the whole database (tasks, diary entries, points ledger)
unchanged: the UPDATE's WHERE clause selects no row. -/
theorem C10_set_active_missing_id_noop (db : DB) (task_id : Nat) (v : Bool)
    (h : ∀ t ∈ db.tasks, t.id ≠ task_id) :
    update_task_active db task_id v = db := by
  have h2 : db.tasks.map (fun t =>
      if t.id = task_id then { t with is_active := v } else t) = db.tasks := by
    conv_rhs => rw [show db.tasks = db.tasks.map id from (db.tasks.map_id).symm]
    exact List.map_congr_left fun t ht => if_neg (h t ht)
  show ({ db with tasks := _ } : DB) = db
  rw [h2]

theorem C10_witness :
    update_task_active
        { emptyDB with tasks := [⟨1, "日記を書いた", 1, true⟩] } 99 false =
      { emptyDB with tasks := [⟨1, "日記を書いた", 1, true⟩] } :=
  C10_set_active_missing_id_noop _ 99 false (by decide)

/-- C4: `get_recent_diaries db n` returns at most `n` entries, ordered by
write timestamp (`created_at`, the fifth selected column) newest first, and
returns the empty sequence when the diary table is empty. -/
theorem C4_list_recent_bounded_sorted (db : DB) (n : Nat) :
    (get_recent_diaries db n).length ≤ n
      ∧ List.Pairwise (fun a b => b.2.2.2.2 ≤ a.2.2.2.2)
          (get_recent_diaries db n)
      ∧ (db.diary = [] → get_recent_diaries db n = []) := by
  refine ⟨?_, ?_, ?_⟩
  · simp only [get_recent_diaries, List.length_map]
    exact List.length_take_le n _
  · rw [get_recent_diaries, List.pairwise_map]
    exact List.Pairwise.sublist (List.take_sublist n _)
      (List.sorted_insertionSort (createdDesc DiaryRow.created_at) db.diary)
  · intro h
    simp [get_recent_diaries, h]

theorem C4_witness :
    (get_recent_diaries emptyDB 10).length ≤ 10
      ∧ get_recent_diaries emptyDB 10 = [] :=
  ⟨(C4_list_recent_bounded_sorted emptyDB 10).1,
    (C4_list_recent_bounded_sorted emptyDB 10).2.2 rfl⟩

theorem init_db_of_empty (db : DB) (h : db.tasks = []) :
    init_db db =
      { db with
        tasks :=
          [⟨db.nextTaskId, "日記を書いた", 1, true⟩,
            ⟨db.nextTaskId + 1, "Python の勉強", 3, true⟩,
            ⟨db.nextTaskId + 2, "運動した", 3, true⟩,
            ⟨db.nextTaskId + 3, "早起きできた", 2, true⟩],
        nextTaskId := db.nextTaskId + 4 } := by
  obtain ⟨diary, tasks, points, nd, nt, np⟩ := db
  simp only at h
  subst h
  simp [init_db, insertTasks, default_tasks, add_task]

/-- C5: the schema initializer is idempotent — it never touches the diary or
points tables, only ever appends to the task table, is the identity when
tasks already exist, inserts exactly the fixed seed list when the task table
is empty, and running it twice equals running it once. -/
theorem C5_init_db_idempotent (db : DB) :
    (init_db db).diary = db.diary
      ∧ (init_db db).points = db.points
      ∧ (∃ extra, (init_db db).tasks = db.tasks ++ extra)
      ∧ (db.tasks ≠ [] → init_db db = db)
      ∧ (db.tasks = [] →
          (init_db db).tasks =
            [⟨db.nextTaskId, "日記を書いた", 1, true⟩,
              ⟨db.nextTaskId + 1, "Python の勉強", 3, true⟩,
              ⟨db.nextTaskId + 2, "運動した", 3, true⟩,
              ⟨db.nextTaskId + 3, "早起きできた", 2, true⟩])
      ∧ init_db (init_db db) = init_db db := by
  by_cases h : db.tasks = []
  · have he := init_db_of_empty db h
    refine ⟨by rw [he], by rw [he], ⟨_, by rw [he, h]; rfl⟩,
      fun hne => absurd h hne, fun _ => by rw [he], ?_⟩
    rw [he]
    simp [init_db]
  · have hd : init_db db = db := by
      simp [init_db, List.isEmpty_iff, h]
    exact ⟨by rw [hd], by rw [hd], ⟨[], by rw [hd, List.append_nil]⟩,
      fun _ => hd, fun he => absurd he h, by rw [hd, hd]⟩

theorem C5_witness :
    (init_db emptyDB).tasks =
        [⟨1, "日記を書いた", 1, true⟩, ⟨2, "Python の勉強", 3, true⟩,
          ⟨3, "運動した", 3, true⟩, ⟨4, "早起きできた", 2, true⟩]
      ∧ init_db (init_db emptyDB) = init_db emptyDB :=
  ⟨(C5_init_db_idempotent emptyDB).2.2.2.2.1 rfl,
    (C5_init_db_idempotent emptyDB).2.2.2.2.2⟩

/-- C8: the task queries return rows in ascending id order, and
`get_active_tasks` returns exactly the tasks whose `is_active` flag is set
while `get_all_tasks` returns them all. -/
theorem C8_list_tasks_ordered_and_filtered (db : DB) :
    List.Pairwise (fun a b => a.1 ≤ b.1) (get_all_tasks db)
      ∧ List.Pairwise (fun a b => a.1 ≤ b.1) (get_active_tasks db)
      ∧ (∀ r, r ∈ get_all_tasks db ↔
          ∃ t ∈ db.tasks, (t.id, t.name, t.point_value, t.is_active) = r)
      ∧ (∀ r, r ∈ get_active_tasks db ↔
          ∃ t ∈ db.tasks, t.is_active = true ∧
            (t.id, t.name, t.point_value) = r) := by
  refine ⟨?_, ?_, ?_, ?_⟩
  · rw [get_all_tasks, List.pairwise_map]
    exact List.sorted_insertionSort idAsc db.tasks
  · rw [get_active_tasks, List.pairwise_map]
    exact List.sorted_insertionSort idAsc _
  · intro r
    simp [get_all_tasks, List.mem_map]
  · intro r
    simp [get_active_tasks, List.mem_map, List.mem_filter, and_assoc]
